import Mathlib

/-!
Shallow embedding of `src/preprod_migration.py`, a one-shot schema
migration script that shells out to `pg_dump` and `psql`.

The script's interaction with the outside world (subprocess results,
the interactive confirmation line) is modelled by a `World` oracle; a
run of `main` is a pure function from the parent environment and the
oracle to the list of observable events (prints, subprocess
invocations, file writes, the input prompt), mirroring the Python
program order statement by statement.
-/

namespace PreprodMigration

/-- Result of `subprocess.run(..., capture_output=True, text=True)`. -/
structure ProcResult where
  returncode : Int
  stdout : String
  stderr : String
  deriving Repr, DecidableEq

/-- A process environment, as a `str -> str` mapping (association list:
`os.environ` copies are finite mappings). -/
abbrev Env : Type := List (String × String)

/-- Python `env[k] = v` on a dict copy: replace the binding of `k` if
present, else append it. -/
def envSet : Env → String → String → Env
  | [], k, v => [(k, v)]
  | (k', v') :: rest, k, v =>
    if k' = k then (k, v) :: rest else (k', v') :: envSet rest k v

/-- Dict lookup `env.get(k)`. -/
def envGet : Env → String → Option String
  | [], _ => none
  | (k', v') :: rest, k => if k' = k then some v' else envGet rest k

/-- Observable side effects of the script, in program order. -/
inductive Event where
  /-- `print(s)` -/
  | print (s : String)
  /-- `subprocess.run(cmd, env=env, capture_output=True, text=True)` -/
  | runProc (cmd : List String) (env : Env)
  /-- `open(name, 'w')` followed by `f.write(content)` -/
  | fileWrite (name : String) (content : String)
  /-- `input(prompt)` -/
  | promptInput (prompt : String)
  deriving Repr, DecidableEq

-- Connection settings (module-level constants of the script).

def SOURCE_HOST : String := "aws-1-ap-southeast-1.pooler.supabase.com"

def SOURCE_PORT : String := "5432"

def SOURCE_USER : String := "postgres.bamybvzufxijghzqdytu"

def SOURCE_DB : String := "postgres"

def TARGET_HOST : String := "aws-1-ap-southeast-1.pooler.supabase.com"

def TARGET_PORT : String := "5432"

def TARGET_USER : String := "postgres.jqihlckqrhdxszgwuymu"

def TARGET_DB : String := "postgres"

def PASSWORD : String := "Turun_2020-"

/-- Tables listed as used by the application (`REQUIRED_TABLES`). -/
def REQUIRED_TABLES : List String :=
  [ "roles", "users", "organization_types", "organizations",
    "regions", "states", "districts",
    "brands", "product_categories", "product_groups", "product_subgroups",
    "products", "product_variants", "product_attributes", "product_images",
    "product_pricing", "product_inventory", "product_skus",
    "orders", "order_items", "payment_terms",
    "qr_batches", "qr_codes", "qr_master_codes", "qr_movements",
    "qr_prepared_codes", "qr_reverse_jobs", "qr_reverse_job_items",
    "qr_reverse_job_logs", "qr_secret_codes", "qr_validation_reports",
    "documents", "document_files", "document_signatures", "doc_counters",
    "stock_movements", "stock_transfers", "stock_adjustments",
    "stock_adjustment_items", "stock_adjustment_reasons",
    "stock_adjustment_manufacturer_actions", "wms_movement_dedup",
    "distributor_products", "shop_distributors",
    "journey_configurations", "journey_order_links",
    "lucky_draw_campaigns", "lucky_draw_entries", "lucky_draw_order_links",
    "scratch_card_campaigns", "scratch_card_rewards", "scratch_card_plays",
    "spin_wheel_campaigns", "spin_wheel_rewards", "spin_wheel_plays",
    "daily_quiz_campaigns", "daily_quiz_questions", "daily_quiz_plays",
    "points_rules", "points_transactions", "point_rewards",
    "consumer_activations", "consumer_feedback", "consumer_qr_scans",
    "redeem_items", "redeem_gifts", "redeem_gift_transactions",
    "redemption_policies", "redemption_orders", "redemption_order_limits",
    "redemption_gifts",
    "notification_types", "notification_settings",
    "notification_provider_configs", "notification_logs",
    "notifications_outbox", "org_notification_settings",
    "message_templates", "email_send_log",
    "otp_challenges",
    "audit_logs" ]

def EXCLUDED_TABLES : List String := []

/-- `os.environ.copy(); env['PGPASSWORD'] = PASSWORD` — the child
environment built by each helper. -/
def childEnv (parent : Env) : Env := envSet parent "PGPASSWORD" PASSWORD

/-- The argument list built by `run_psql` (lines 157–165). -/
def psqlCmd (host user db sql : String) : List String :=
  [ "psql", "-h", host, "-p", "5432", "-U", user, "-d", db,
    "--set", "ON_ERROR_STOP=on", "-c", sql ]

/-- The argument list built by `run_psql_file` (lines 177–184). -/
def psqlFileCmd (host user db filename : String) : List String :=
  [ "psql", "-h", host, "-p", "5432", "-U", user, "-d", db,
    "-f", filename ]

/-- Python truthiness of the optional `tables` argument
(`if tables:` — `None` and `[]` are both falsy). -/
def tablesTruthy : Option (List String) → Bool
  | none => false
  | some ts => !ts.isEmpty

/-- The fixed flags of the dump command (lines 194–203). -/
def pgDumpBase : List String :=
  [ "pg_dump", "-h", SOURCE_HOST, "-p", SOURCE_PORT,
    "-U", SOURCE_USER, "-d", SOURCE_DB,
    "--no-owner", "--no-acl", "-n", "public" ]

/-- The `for table in tables: cmd.extend(['-t', f'public.{table}'])`
loop (lines 208–210). -/
def tableArgs : List String → List String
  | [] => []
  | table :: rest => "-t" :: ("public." ++ table) :: tableArgs rest

/-- The argument list built by `pg_dump_schema` (lines 194–210): fixed
connection flags, then `--schema-only` unless `include_data`, then a
`-t public.<table>` pair per listed table. -/
def pgDumpCmd (tables : Option (List String)) (include_data : Bool) :
    List String :=
  pgDumpBase
    ++ (if !include_data then ["--schema-only"] else [])
    ++ (if tablesTruthy tables then tableArgs (tables.getD []) else [])

/-- `run_psql`: events emitted and the result returned.  `res` is the
oracle's answer for the spawned `psql -c` process. -/
def run_psql (parent : Env) (res : ProcResult)
    (host user db sql : String) : List Event × ProcResult :=
  ( [Event.runProc (psqlCmd host user db sql) (childEnv parent)]
      ++ (if res.returncode ≠ 0 then
            [Event.print ("Error: " ++ res.stderr)]
          else []),
    res )

/-- `run_psql_file`: events emitted and the result returned.  `res` is
the oracle's answer for the spawned `psql -f` process. -/
def run_psql_file (parent : Env) (res : ProcResult)
    (host user db filename : String) : List Event × ProcResult :=
  ([Event.runProc (psqlFileCmd host user db filename) (childEnv parent)],
   res)

/-- `pg_dump_schema`: events emitted and the captured stdout returned
(the return code and stderr of `res` are dropped, as in the source). -/
def pg_dump_schema (parent : Env) (res : ProcResult)
    (tables : Option (List String) := none)
    (include_data : Bool := false) : List Event × String :=
  ([Event.runProc (pgDumpCmd tables include_data) (childEnv parent)],
   res.stdout)

/-- Python `str.lower()` (ASCII case folding, as used on the
confirmation input). -/
def pyLower (s : String) : String := ⟨s.data.map Char.toLower⟩

/-- Python slicing `s[:n]`: the first `n` characters (code points). -/
def pySlice (s : String) (n : Nat) : String := ⟨s.data.take n⟩

/-- Python `s[:2000] if s else fallback`: first 2000 characters, with
the fallback on the empty (falsy) string. -/
def stderrExcerpt (stderr : String) : String :=
  if stderr = "" then "No error output" else pySlice stderr 2000

/-- External behaviour the script cannot control: what the two spawned
processes return and what the user types at the prompt. -/
structure World where
  dumpResult : ProcResult
  userInput : String
  applyResult : ProcResult
  deriving Repr, DecidableEq

def EXPORT_FILE : String := "preprod_schema_export.sql"

def sixtyEquals : String := String.mk (List.replicate 60 '=')

/-- `main` (lines 215–251) as its trace of observable events. -/
def main (parent : Env) (w : World) : List Event :=
  [ Event.print sixtyEquals,
    Event.print "PREPROD DATABASE MIGRATION",
    Event.print sixtyEquals,
    Event.print "\n[Step 1] Exporting schema from source database..." ]
  ++ (pg_dump_schema parent w.dumpResult).1
  ++ (let schema_sql := (pg_dump_schema parent w.dumpResult).2
      [ Event.fileWrite EXPORT_FILE schema_sql,
        Event.print ("Schema exported to preprod_schema_export.sql ("
          ++ toString schema_sql.length ++ " bytes)"),
        Event.print "\n[Step 2] This will apply schema to target database.",
        Event.print ("Target: " ++ TARGET_HOST ++ " / " ++ TARGET_USER),
        Event.promptInput "Continue? (yes/no): " ])
  ++ (if pyLower w.userInput ≠ "yes" then
        [Event.print "Aborted."]
      else
        (run_psql_file parent w.applyResult
            TARGET_HOST TARGET_USER TARGET_DB EXPORT_FILE).1
        ++ (let result := (run_psql_file parent w.applyResult
              TARGET_HOST TARGET_USER TARGET_DB EXPORT_FILE).2
            if result.returncode = 0 then
              [Event.print "Schema applied successfully!"]
            else
              [ Event.print "Schema application had issues:",
                Event.print (stderrExcerpt result.stderr) ])
        ++ [ Event.print "\n[Step 3] Migration complete!",
             Event.print "\nNext steps:",
             Event.print "1. Migrate admin user manually",
             Event.print "2. Update preprod environment variables",
             Event.print "3. Test login functionality" ])

def isRunProc : Event → Bool
  | .runProc _ _ => true
  | _ => false

def isFileWrite : Event → Bool
  | .fileWrite _ _ => true
  | _ => false

/-- The dump invocation emitted by `main` (default arguments). -/
def dumpEvent (parent : Env) : Event :=
  .runProc (pgDumpCmd none false) (childEnv parent)

/-- The apply command built at `main`'s call site. -/
def applyCmd : List String :=
  psqlFileCmd TARGET_HOST TARGET_USER TARGET_DB EXPORT_FILE

/-- The apply invocation emitted by `main` when confirmed. -/
def applyEvent (parent : Env) : Event :=
  .runProc applyCmd (childEnv parent)

/-- The single file write performed by `main`. -/
def writeEvent (w : World) : Event :=
  .fileWrite EXPORT_FILE w.dumpResult.stdout

/-- Everything `main` does up to and including the confirmation
prompt, in program order. -/
def preConfirm (parent : Env) (w : World) : List Event :=
  [ .print sixtyEquals,
    .print "PREPROD DATABASE MIGRATION",
    .print sixtyEquals,
    .print "\n[Step 1] Exporting schema from source database...",
    dumpEvent parent,
    writeEvent w,
    .print ("Schema exported to preprod_schema_export.sql ("
      ++ toString w.dumpResult.stdout.length ++ " bytes)"),
    .print "\n[Step 2] This will apply schema to target database.",
    .print ("Target: " ++ TARGET_HOST ++ " / " ++ TARGET_USER),
    .promptInput "Continue? (yes/no): " ]

/-- The status report printed after the apply invocation. -/
def applyReport (res : ProcResult) : List Event :=
  if res.returncode = 0 then
    [.print "Schema applied successfully!"]
  else
    [ .print "Schema application had issues:",
      .print (stderrExcerpt res.stderr) ]

/-- The unconditional closing prints of `main`. -/
def finalPrints : List Event :=
  [ .print "\n[Step 3] Migration complete!",
    .print "\nNext steps:",
    .print "1. Migrate admin user manually",
    .print "2. Update preprod environment variables",
    .print "3. Test login functionality" ]

lemma main_eq (parent : Env) (w : World) :
    main parent w = preConfirm parent w ++
      (if pyLower w.userInput = "yes" then
         applyEvent parent :: (applyReport w.applyResult ++ finalPrints)
       else [.print "Aborted."]) := by
  by_cases h : pyLower w.userInput = "yes" <;>
    simp [main, preConfirm, applyReport, finalPrints, pg_dump_schema,
      run_psql_file, dumpEvent, applyEvent, applyCmd, writeEvent, h]

/-- A run in which the user declines the confirmation prompt. -/
def declineWorld : World :=
  ⟨⟨0, "SQL", ""⟩, "No", ⟨0, "", ""⟩⟩

/-- A run in which the user confirms (with different casing) and the
apply process then fails. -/
def confirmWorld : World :=
  ⟨⟨0, "SQL", ""⟩, "YES", ⟨1, "", "boom"⟩⟩

lemma filter_runProc_applyReport (res : ProcResult) :
    (applyReport res).filter isRunProc = [] := by
  unfold applyReport
  split <;> rfl

lemma filter_fileWrite_applyReport (res : ProcResult) :
    (applyReport res).filter isFileWrite = [] := by
  unfold applyReport
  split <;> rfl

lemma applyCmd_ne_dumpCmd : applyCmd ≠ pgDumpCmd none false := by decide

lemma dumpCmd_ne_applyCmd : pgDumpCmd none false ≠ applyCmd := by decide

lemma main_filter_runProc (parent : Env) (w : World) :
    (main parent w).filter isRunProc =
      (if pyLower w.userInput = "yes" then
         [dumpEvent parent, applyEvent parent]
       else [dumpEvent parent]) := by
  rw [main_eq]
  by_cases h : pyLower w.userInput = "yes" <;>
    simp [h, preConfirm, finalPrints, isRunProc, List.filter_append,
      filter_runProc_applyReport, dumpEvent, applyEvent, writeEvent]

lemma main_filter_fileWrite (parent : Env) (w : World) :
    (main parent w).filter isFileWrite = [writeEvent w] := by
  rw [main_eq]
  by_cases h : pyLower w.userInput = "yes" <;>
    simp [h, preConfirm, finalPrints, isFileWrite, List.filter_append,
      filter_fileWrite_applyReport, dumpEvent, applyEvent, writeEvent]

lemma ne_of_head (s1 s2 : String) (h : s1.data.head? ≠ s2.data.head?) :
    s1 ≠ s2 :=
  fun he => h (congrArg (fun s => s.data.head?) he)

lemma public_append_head (t : String) :
    ("public." ++ t).data.head? = some 'p' := by
  obtain ⟨l⟩ := t
  rfl

lemma schema_only_ne_public (t : String) :
    "--schema-only" ≠ "public." ++ t := by
  apply ne_of_head
  rw [public_append_head]
  decide

lemma schema_only_not_mem_tableArgs (ts : List String) :
    "--schema-only" ∉ tableArgs ts := by
  induction ts with
  | nil => simp [tableArgs]
  | cons t rest ih =>
    intro h
    simp only [tableArgs, List.mem_cons] at h
    rcases h with h | h | h
    · exact absurd h (by decide)
    · exact schema_only_ne_public t h
    · exact ih h

lemma envGet_envSet_self (e : Env) (k v : String) :
    envGet (envSet e k v) k = some v := by
  induction e with
  | nil => simp [envSet, envGet]
  | cons p rest ih =>
    obtain ⟨k', v'⟩ := p
    by_cases h : k' = k <;> simp [envSet, envGet, h, ih]

lemma envGet_envSet_ne (e : Env) (k v k' : String) (h : k' ≠ k) :
    envGet (envSet e k v) k' = envGet e k' := by
  induction e with
  | nil => simp [envSet, envGet, Ne.symm h]
  | cons p rest ih =>
    obtain ⟨k0, v0⟩ := p
    by_cases h0 : k0 = k
    · subst h0
      simp [envSet, envGet, Ne.symm h]
    · simp only [envSet, if_neg h0]
      by_cases h1 : k0 = k'
      · simp [envGet, h1]
      · simp [envGet, h1, ih]

/-- C1: the run reaches the apply invocation exactly when the
interactive input, lowercased, is the string "yes"; on any other input
(whitespace included) the trace after the prompt is only the "Aborted."
print — no subprocess is spawned and no file is written past that point. -/
theorem C1_confirm_gate (parent : Env) (w : World) :
    (applyEvent parent ∈ main parent w ↔ pyLower w.userInput = "yes") ∧
    (pyLower w.userInput ≠ "yes" →
      main parent w = preConfirm parent w ++ [Event.print "Aborted."]) := by
  constructor
  · constructor
    · intro hmem
      by_contra h
      rw [main_eq, if_neg h] at hmem
      simp [preConfirm, applyEvent, dumpEvent, writeEvent,
        applyCmd_ne_dumpCmd] at hmem
    · intro h
      rw [main_eq, if_pos h]
      exact List.mem_append_right _ (List.mem_cons_self _ _)
  · intro h
    rw [main_eq, if_neg h]

/-- Witness for C1 at a declining run ("No") and a confirming run ("YES"). -/
theorem C1_confirm_gate_witness :
    pyLower declineWorld.userInput ≠ "yes" ∧
    main [] declineWorld = preConfirm [] declineWorld
      ++ [Event.print "Aborted."] ∧
    pyLower confirmWorld.userInput = "yes" ∧
    applyEvent [] ∈ main [] confirmWorld :=
  ⟨by decide, (C1_confirm_gate [] declineWorld).2 (by decide), by decide,
   (C1_confirm_gate [] confirmWorld).1.mpr (by decide)⟩

/-- C2: the dump invocation emitted by `main` uses the default
arguments (`tables=None`), its command is a fixed list with no `-t`
filter, and no `REQUIRED_TABLES` entry (bare or `public.`-qualified)
occurs in it. -/
theorem C2_dump_unfiltered (parent : Env) (w : World) :
    dumpEvent parent ∈ main parent w ∧
    dumpEvent parent = Event.runProc (pgDumpCmd none false) (childEnv parent) ∧
    pgDumpCmd none false =
      [ "pg_dump", "-h", SOURCE_HOST, "-p", SOURCE_PORT,
        "-U", SOURCE_USER, "-d", SOURCE_DB,
        "--no-owner", "--no-acl", "-n", "public", "--schema-only" ] ∧
    "-t" ∉ pgDumpCmd none false ∧
    (REQUIRED_TABLES.all (fun t =>
        !(pgDumpCmd none false).contains t &&
        !(pgDumpCmd none false).contains ("public." ++ t))) = true := by
  refine ⟨?_, rfl, rfl, by decide, by decide⟩
  rw [main_eq]
  exact List.mem_append_left _ (by simp [preConfirm])

/-- C3: whatever the apply process returns, a confirmed run is the full
linear trace and therefore reaches the closing prints; the only
subprocess invocations are the single dump and the single apply. -/
theorem C3_complete_despite_failure (parent : Env) (w : World)
    (h : pyLower w.userInput = "yes") :
    main parent w = preConfirm parent w ++ applyEvent parent ::
      (applyReport w.applyResult ++ finalPrints) ∧
    (main parent w).filter isRunProc = [dumpEvent parent, applyEvent parent] ∧
    Event.print "\n[Step 3] Migration complete!" ∈ main parent w ∧
    Event.print "3. Test login functionality" ∈ main parent w := by
  refine ⟨by rw [main_eq, if_pos h], by rw [main_filter_runProc, if_pos h],
    ?_, ?_⟩ <;>
  · rw [main_eq, if_pos h]
    simp [finalPrints]

/-- Witness for C3 at a confirmed run whose apply process fails. -/
theorem C3_complete_witness :
    pyLower confirmWorld.userInput = "yes" ∧
    confirmWorld.applyResult.returncode ≠ 0 ∧
    Event.print "\n[Step 3] Migration complete!" ∈ main [] confirmWorld :=
  ⟨by decide, by decide,
   (C3_complete_despite_failure [] confirmWorld (by decide)).2.2.1⟩

/-- C4: `pg_dump_schema` returns the captured stdout for every process
result (the return code and stderr are dropped); the whole trace of
`main` is unchanged under any return code and stderr of the dump
process; and the file write of the captured stdout always occurs. -/
theorem C4_dump_result_unchecked :
    (∀ (parent : Env) (res : ProcResult) (tables : Option (List String))
        (inc : Bool), (pg_dump_schema parent res tables inc).2 = res.stdout) ∧
    (∀ (parent : Env) (w : World) (r : Int) (s : String),
        main parent ⟨⟨r, w.dumpResult.stdout, s⟩, w.userInput, w.applyResult⟩
          = main parent w) ∧
    (∀ (parent : Env) (w : World),
        Event.fileWrite EXPORT_FILE w.dumpResult.stdout ∈ main parent w) := by
  refine ⟨fun _ _ _ _ => rfl, fun _ _ _ _ => rfl, fun parent w => ?_⟩
  rw [main_eq]
  exact List.mem_append_left _ (by simp [preConfirm, writeEvent])

/-- C5: in every run the file writes of `main` are exactly one write of
the captured dump stdout to `preprod_schema_export.sql`, verbatim. -/
theorem C5_export_file_verbatim (parent : Env) (w : World) :
    (main parent w).filter isFileWrite =
      [Event.fileWrite EXPORT_FILE w.dumpResult.stdout] :=
  main_filter_fileWrite parent w

/-- C6: on a confirmed run whose apply process fails, `main` prints the
issues header and the stderr excerpt; the excerpt is the fallback text
on empty stderr and otherwise the first at-most-2000 characters of
stderr (a length-bounded initial segment). -/
theorem C6_stderr_truncation (parent : Env) (w : World)
    (hc : pyLower w.userInput = "yes")
    (hr : w.applyResult.returncode ≠ 0) :
    Event.print "Schema application had issues:" ∈ main parent w ∧
    Event.print (stderrExcerpt w.applyResult.stderr) ∈ main parent w ∧
    (w.applyResult.stderr = "" →
       stderrExcerpt w.applyResult.stderr = "No error output") ∧
    (w.applyResult.stderr ≠ "" →
       stderrExcerpt w.applyResult.stderr = pySlice w.applyResult.stderr 2000 ∧
       (stderrExcerpt w.applyResult.stderr).length ≤ 2000 ∧
       (stderrExcerpt w.applyResult.stderr).data
           ++ w.applyResult.stderr.data.drop 2000
         = w.applyResult.stderr.data) := by
  refine ⟨?_, ?_, fun he => by simp [stderrExcerpt, he], fun he => ?_⟩
  · rw [main_eq, if_pos hc]
    simp [applyReport, hr]
  · rw [main_eq, if_pos hc]
    simp [applyReport, hr]
  · rw [stderrExcerpt, if_neg he]
    refine ⟨rfl, ?_, List.take_append_drop 2000 _⟩
    exact List.length_take_le 2000 _

/-- Witness for C6 at a confirmed run whose apply process exits 1 with
stderr "boom". -/
theorem C6_stderr_witness :
    pyLower confirmWorld.userInput = "yes" ∧
    confirmWorld.applyResult.returncode ≠ 0 ∧
    Event.print (stderrExcerpt confirmWorld.applyResult.stderr)
      ∈ main [] confirmWorld :=
  ⟨by decide, by decide,
   (C6_stderr_truncation [] confirmWorld (by decide) (by decide)).2.1⟩

/-- C7: every subprocess invocation in a run of `main`, and the one
built by each helper, carries the parent environment with `PGPASSWORD`
bound to the hardcoded password, and a command made of the hardcoded
connection constants; the child environment agrees with the parent on
every other key. -/
theorem C7_child_env (parent : Env) :
    (∀ (w : World) (cmd : List String) (env : Env),
        Event.runProc cmd env ∈ main parent w →
          env = childEnv parent ∧
          (cmd = pgDumpCmd none false ∨ cmd = applyCmd)) ∧
    (∀ (res : ProcResult) (h u d s : String),
        Event.runProc (psqlCmd h u d s) (childEnv parent)
          ∈ (run_psql parent res h u d s).1) ∧
    (∀ (res : ProcResult) (h u d f : String),
        (run_psql_file parent res h u d f).1 =
          [Event.runProc (psqlFileCmd h u d f) (childEnv parent)]) ∧
    (∀ (res : ProcResult) (tables : Option (List String)) (inc : Bool),
        (pg_dump_schema parent res tables inc).1 =
          [Event.runProc (pgDumpCmd tables inc) (childEnv parent)]) ∧
    envGet (childEnv parent) "PGPASSWORD" = some PASSWORD ∧
    (∀ k, k ≠ "PGPASSWORD" → envGet (childEnv parent) k = envGet parent k) := by
  refine ⟨?_, fun res h u d s => by simp [run_psql], fun _ _ _ _ _ => rfl,
    fun _ _ _ => rfl, envGet_envSet_self parent "PGPASSWORD" PASSWORD,
    fun k hk => envGet_envSet_ne parent "PGPASSWORD" PASSWORD k hk⟩
  intro w cmd env hmem
  have h2 : Event.runProc cmd env ∈ (main parent w).filter isRunProc :=
    List.mem_filter.mpr ⟨hmem, rfl⟩
  rw [main_filter_runProc] at h2
  by_cases h : pyLower w.userInput = "yes"
  · rw [if_pos h] at h2
    simp [dumpEvent, applyEvent] at h2
    rcases h2 with ⟨hc, he⟩ | ⟨hc, he⟩
    exacts [⟨he, Or.inl hc⟩, ⟨he, Or.inr hc⟩]
  · rw [if_neg h] at h2
    simp [dumpEvent] at h2
    exact ⟨h2.2, Or.inl h2.1⟩

/-- Witness for C7 at the dump invocation of a concrete run and at the
key "HOME". -/
theorem C7_child_env_witness :
    dumpEvent [] ∈ main [] declineWorld ∧
    (childEnv [] = childEnv [] ∧
       (pgDumpCmd none false = pgDumpCmd none false ∨
        pgDumpCmd none false = applyCmd)) ∧
    envGet (childEnv []) "HOME" = envGet ([] : Env) "HOME" :=
  ⟨by decide,
   (C7_child_env []).1 declineWorld (pgDumpCmd none false) (childEnv [])
     (by decide),
   (C7_child_env []).2.2.2.2.2 "HOME" (by decide)⟩

/-- C8: every run is the fixed linear trace — export invocation, file
write, prompt (all inside `preConfirm`, in that order), then either the
single early-exit print or the apply invocation followed by the report
and the closing prints; each external invocation occurs at most once,
the lone file write happens before the confirmation prompt and hence
before the apply invocation, and the apply command names the very file
that was written. -/
theorem C8_linear_order (parent : Env) (w : World) :
    main parent w = preConfirm parent w ++
      (if pyLower w.userInput = "yes" then
         applyEvent parent :: (applyReport w.applyResult ++ finalPrints)
       else [Event.print "Aborted."]) ∧
    (main parent w).filter isRunProc =
      (if pyLower w.userInput = "yes" then
         [dumpEvent parent, applyEvent parent]
       else [dumpEvent parent]) ∧
    (main parent w).filter isFileWrite =
      [Event.fileWrite EXPORT_FILE w.dumpResult.stdout] ∧
    Event.fileWrite EXPORT_FILE w.dumpResult.stdout ∈ preConfirm parent w ∧
    applyEvent parent ∉ preConfirm parent w ∧
    applyCmd.getLast? = some EXPORT_FILE := by
  refine ⟨main_eq parent w, main_filter_runProc parent w,
    main_filter_fileWrite parent w, by simp [preConfirm, writeEvent],
    ?_, by decide⟩
  intro hmem
  simp [preConfirm, applyEvent, dumpEvent, writeEvent,
    applyCmd_ne_dumpCmd] at hmem

/-- C9: the apply command contains neither `--set` nor
`ON_ERROR_STOP=on`, unlike the command built by `run_psql` which always
contains both; the apply command is exactly the one `run_psql_file`
builds at the call site, and it is the one run on confirmation. -/
theorem C9_apply_no_error_stop :
    "--set" ∉ applyCmd ∧
    "ON_ERROR_STOP=on" ∉ applyCmd ∧
    applyCmd = psqlFileCmd TARGET_HOST TARGET_USER TARGET_DB EXPORT_FILE ∧
    (∀ h u d s, "--set" ∈ psqlCmd h u d s ∧
       "ON_ERROR_STOP=on" ∈ psqlCmd h u d s) ∧
    (∀ (parent : Env) (w : World), pyLower w.userInput = "yes" →
       applyEvent parent ∈ main parent w) := by
  refine ⟨by decide, by decide, rfl,
    fun h u d s => ⟨by simp [psqlCmd], by simp [psqlCmd]⟩,
    fun parent w hc => ?_⟩
  rw [main_eq, if_pos hc]
  exact List.mem_append_right _ (List.mem_cons_self _ _)

/-- Witness for C9 at a confirmed run and a concrete `run_psql` command. -/
theorem C9_apply_witness :
    pyLower confirmWorld.userInput = "yes" ∧
    applyEvent [] ∈ main [] confirmWorld ∧
    "--set" ∈ psqlCmd SOURCE_HOST SOURCE_USER SOURCE_DB "SELECT 1" :=
  ⟨by decide, C9_apply_no_error_stop.2.2.2.2 [] confirmWorld (by decide),
   (C9_apply_no_error_stop.2.2.2.1 SOURCE_HOST SOURCE_USER SOURCE_DB
      "SELECT 1").1⟩

/-- C10: the dump command contains `--schema-only` exactly when
`include_data` is false; with a non-empty table list it is the fixed
flags followed by one `-t public.<name>` pair per table in list order;
with the default `tables=None` no `-t` appears. -/
theorem C10_dump_flags :
    (∀ tables, "--schema-only" ∈ pgDumpCmd tables false) ∧
    (∀ tables, "--schema-only" ∉ pgDumpCmd tables true) ∧
    (∀ (ts : List String) (inc : Bool), ts ≠ [] →
       pgDumpCmd (some ts) inc =
         pgDumpBase ++ (if !inc then ["--schema-only"] else [])
           ++ tableArgs ts) ∧
    (∀ (t : String) (ts : List String),
       tableArgs (t :: ts) = "-t" :: ("public." ++ t) :: tableArgs ts) ∧
    (∀ inc, "-t" ∉ pgDumpCmd none inc) := by
  refine ⟨fun tables => ?_, fun tables => ?_, fun ts inc hne => ?_,
    fun t ts => rfl, fun inc => by cases inc <;> decide⟩
  · unfold pgDumpCmd
    exact List.mem_append_left _ (List.mem_append_right _ (by decide))
  · intro h
    unfold pgDumpCmd at h
    rw [List.mem_append, List.mem_append] at h
    rcases h with (h | h) | h
    · exact absurd h (by decide)
    · simp at h
    · rcases tables with _ | ts
      · simp [tablesTruthy] at h
      · by_cases hb : tablesTruthy (some ts) = true
        · rw [if_pos hb] at h
          exact schema_only_not_mem_tableArgs ts h
        · rw [if_neg hb] at h
          exact absurd h (List.not_mem_nil _)
  · have hT : tablesTruthy (some ts) = true := by
      cases ts with
      | nil => exact absurd rfl hne
      | cons a as => rfl
    simp [pgDumpCmd, hT]

/-- Witness for C10 at the one-table list `["users"]`. -/
theorem C10_dump_flags_witness :
    (["users"] : List String) ≠ [] ∧
    pgDumpCmd (some ["users"]) false =
      pgDumpBase ++ (if !false then ["--schema-only"] else [])
        ++ tableArgs ["users"] ∧
    "--schema-only" ∉ pgDumpCmd (some ["users"]) true :=
  ⟨by decide, C10_dump_flags.2.2.1 ["users"] false (by decide),
   C10_dump_flags.2.1 (some ["users"])⟩

end PreprodMigration
